import Mathlib

/-!
Shallow embedding of `src/plot_forecast.py` (a Plotly helper assembling a
figure for a Prophet-style forecast) and verification of its specification.

Modelling conventions:
* A pandas `DataFrame` is an ordered association list from column names to
  columns; cell values are `Int` (they are only carried around, never
  computed with).  Column access `df["c"]` is fallible and raises a
  `KeyError`-style message when the column is absent, mirrored by `Except`.
* A Plotly `go.Scatter` trace is a record of exactly the fields the source
  sets; unset fields are `none`.  `go.Figure` is a trace list plus a layout
  record; `add_trace` appends.
* The model object `m` is a record of the three optionally-present
  attributes the source reads (`history`, `logistic_floor`,
  `uncertainty_samples`); `getattr(m, a, d)` becomes `Option.getD`.
* Python reference semantics (the `fcst.copy()` and `DEFAULT_PALETTE.copy()`
  lines exist to avoid mutating caller-owned objects) are modelled by an
  explicit object store `PyState` threaded through `plot_forecastS`; the
  pure `plot_forecast` is the same computation read off the store.
* The exact decimal constants `0.5` and `1.02` in the layout are modelled
  as `Rat` (no arithmetic is performed on them).
-/

/-- A pandas-style data frame: ordered columns, each a name and a list of
cell values. -/
structure DataFrame where
  cols : List (String × List Int)
deriving DecidableEq

/-- `name in df.columns`. -/
def DataFrame.hasCol (df : DataFrame) (c : String) : Bool :=
  (df.cols.find? (fun p => p.1 == c)).isSome

/-- `df[name]`: the column's values, or a `KeyError` when absent. -/
def DataFrame.getCol (df : DataFrame) (c : String) : Except String (List Int) :=
  match df.cols.find? (fun p => p.1 == c) with
  | some p => .ok p.2
  | none => .error ("KeyError: " ++ c)

/-- Statement-side device: the data frame with the named columns dropped
(used to express that certain columns are never accessed). -/
def DataFrame.removeCols (df : DataFrame) (names : List String) : DataFrame :=
  ⟨df.cols.filter (fun p => !(names.contains p.1))⟩

/-- A Python `dict` from palette roles to colour strings, as an ordered
association list with the usual first-match read. -/
abbrev Palette : Type := List (String × String)

/-- `d.get(k)` on a dict. -/
def dictGet? (d : Palette) (k : String) : Option String :=
  (d.find? (fun p => p.1 == k)).map (fun p => p.2)

/-- `d[k]` on a dict: `KeyError` when the key is absent. -/
def paletteGet (d : Palette) (k : String) : Except String String :=
  match dictGet? d k with
  | some v => .ok v
  | none => .error ("KeyError: " ++ k)

/-- `base.update(ov)` on a copy of `base`: existing keys keep their position
but take the override's value, new override keys are appended in order. -/
def dictUpdate (base ov : Palette) : Palette :=
  (base.map (fun p =>
    match dictGet? ov p.1 with
    | some v => (p.1, v)
    | none => p))
  ++ ov.filter (fun p => (dictGet? base p.1).isNone)

/-- The module-level `DEFAULT_PALETTE` constant of `plot_forecast.py`. -/
def DEFAULT_PALETTE : Palette :=
  [("forecast", "#0D47A1"),
   ("observed", "#FF6F00"),
   ("cap", "#000000"),
   ("uncertainty", "rgba(0, 114, 178, 0.2)")]

/-- `line=dict(...)` of a Scatter trace. -/
structure LineStyle where
  color : Option String
  width : Option Nat
  dash : Option String
deriving DecidableEq

/-- `marker=dict(...)` of a Scatter trace. -/
structure MarkerStyle where
  color : Option String
  size : Option Nat
  opacity : Option Nat
deriving DecidableEq

/-- A `go.Scatter` trace, restricted to the fields the source ever sets. -/
structure Trace where
  x : List Int
  y : List Int
  mode : String
  line : Option LineStyle
  marker : Option MarkerStyle
  fill : Option String
  fillcolor : Option String
  hoverinfo : Option String
  showlegend : Option Bool
  name : Option String
deriving DecidableEq

/-- `margin=dict(l=..., r=..., t=..., b=...)`. -/
structure Margin where
  l : Nat
  r : Nat
  t : Nat
  b : Nat
deriving DecidableEq

/-- `title=dict(text=..., x=...)`. -/
structure TitleCfg where
  text : String
  x : Rat
deriving DecidableEq

/-- `legend=dict(orientation=..., yanchor=..., y=...)`. -/
structure LegendCfg where
  orientation : String
  yanchor : String
  y : Rat
deriving DecidableEq

/-- The figure layout, restricted to the attributes the source ever sets. -/
structure Layout where
  width : Option Nat
  height : Option Nat
  margin : Option Margin
  title : Option TitleCfg
  xaxisTitle : Option String
  yaxisTitle : Option String
  hovermode : Option String
  legend : Option LegendCfg
  showlegend : Option Bool
deriving DecidableEq

/-- The layout of a freshly created `go.Figure()`: nothing set. -/
def emptyLayout : Layout :=
  { width := none, height := none, margin := none, title := none,
    xaxisTitle := none, yaxisTitle := none, hovermode := none,
    legend := none, showlegend := none }

/-- A `go.Figure`: ordered trace list plus layout. -/
structure Figure where
  data : List Trace
  layout : Layout
deriving DecidableEq

/-- A freshly created `go.Figure()`. -/
def emptyFigure : Figure :=
  { data := [], layout := emptyLayout }

/-- `fig.add_trace(t)`: appends the trace. -/
def Figure.add_trace (fig : Figure) (t : Trace) : Figure :=
  { fig with data := fig.data ++ [t] }

/-- The Prophet model object, restricted to the three optionally-present
attributes the source reads. -/
structure Model where
  history : Option DataFrame
  logistic_floor : Option Bool
  uncertainty_samples : Option Int
deriving DecidableEq

/-- The trace built by `_add_forecast`. -/
def forecastTrace (x y : List Int) (c : String) : Trace :=
  { x := x, y := y, mode := "lines",
    line := some { color := some c, width := some 2, dash := none },
    marker := none, fill := none, fillcolor := none, hoverinfo := none,
    showlegend := none, name := some ("Forecast") }

/-- The trace built by `_add_observed`. -/
def observedTrace (x y : List Int) (c : String) : Trace :=
  { x := x, y := y, mode := "markers",
    line := none,
    marker := some { color := some c, size := some 4, opacity := some 1 },
    fill := none, fillcolor := none, hoverinfo := none,
    showlegend := none, name := some ("Observed data points") }

/-- The "Maximum capacity" trace built by `_add_capacity`. -/
def maxCapTrace (x y : List Int) (c : String) : Trace :=
  { x := x, y := y, mode := "lines",
    line := some { color := some c, width := none, dash := some ("dash") },
    marker := none, fill := none, fillcolor := none, hoverinfo := none,
    showlegend := none, name := some ("Maximum capacity") }

/-- The "Minimum capacity" trace built by `_add_capacity`. -/
def minCapTrace (x y : List Int) (c : String) : Trace :=
  { x := x, y := y, mode := "lines",
    line := some { color := some c, width := none, dash := some ("dash") },
    marker := none, fill := none, fillcolor := none, hoverinfo := none,
    showlegend := none, name := some ("Minimum capacity") }

/-- The invisible upper-bound trace built by `_add_uncertainty`. -/
def upperBandTrace (x y : List Int) : Trace :=
  { x := x, y := y, mode := "lines",
    line := some { color := none, width := some 0, dash := none },
    marker := none, fill := none, fillcolor := none,
    hoverinfo := some ("skip"), showlegend := some false, name := none }

/-- The filled lower-bound trace built by `_add_uncertainty`. -/
def lowerBandTrace (x y : List Int) (c : String) : Trace :=
  { x := x, y := y, mode := "lines",
    line := some { color := none, width := some 0, dash := none },
    marker := none, fill := some ("tonexty"), fillcolor := some c,
    hoverinfo := some ("skip"), showlegend := none,
    name := some ("Uncertainty interval") }
/-- `_add_forecast(fig, fcst, palette)` from the source: the mean line.
Sequential Python statements with exception propagation are an
`Except.bind` chain, in the source's evaluation order. -/
def _add_forecast (fig : Figure) (fcst : DataFrame) (pal : Palette) :
    Except String Figure :=
  Except.bind (fcst.getCol ("ds")) (fun x =>
    Except.bind (fcst.getCol ("yhat")) (fun y =>
      Except.bind (paletteGet pal ("forecast")) (fun c =>
        .ok (fig.add_trace (forecastTrace x y c)))))

/-- The body of `_add_observed` once `hasattr(m, "history")` holds. -/
def _add_observed_hist (fig : Figure) (hdf : DataFrame) (pal : Palette) :
    Except String Figure :=
  Except.bind (hdf.getCol ("ds")) (fun x =>
    Except.bind (hdf.getCol ("y")) (fun y =>
      Except.bind (paletteGet pal ("observed")) (fun c =>
        .ok (fig.add_trace (observedTrace x y c)))))

/-- `_add_observed(fig, m, palette)` from the source: history markers,
skipped silently when the model has no `history` attribute. -/
def _add_observed (fig : Figure) (m : Model) (pal : Palette) :
    Except String Figure :=
  match m.history with
  | none => .ok fig
  | some hdf => _add_observed_hist fig hdf pal

/-- The first branch of `_add_capacity`: the "Maximum capacity" trace
(entered only when `"cap" in fcst.columns`). -/
def _add_capacity_max (fig : Figure) (fcst : DataFrame) (pal : Palette) :
    Except String Figure :=
  Except.bind (fcst.getCol ("ds")) (fun x =>
    Except.bind (fcst.getCol ("cap")) (fun y =>
      Except.bind (paletteGet pal ("cap")) (fun c =>
        .ok (fig.add_trace (maxCapTrace x y c)))))

/-- The second branch of `_add_capacity`: the "Minimum capacity" trace
(entered only under `getattr(m, "logistic_floor", False) and "floor" in
fcst.columns`). -/
def _add_capacity_floor (fig : Figure) (fcst : DataFrame) (pal : Palette) :
    Except String Figure :=
  Except.bind (fcst.getCol ("ds")) (fun x =>
    Except.bind (fcst.getCol ("floor")) (fun y =>
      Except.bind (paletteGet pal ("cap")) (fun c =>
        .ok (fig.add_trace (minCapTrace x y c)))))

/-- `_add_capacity(fig, m, fcst, palette)` from the source: two
independently-guarded dashed lines, in order. -/
def _add_capacity (fig : Figure) (m : Model) (fcst : DataFrame)
    (pal : Palette) : Except String Figure :=
  Except.bind
    (if fcst.hasCol ("cap") then _add_capacity_max fig fcst pal
     else .ok fig)
    (fun fig1 =>
      if m.logistic_floor.getD false && fcst.hasCol ("floor") then
        _add_capacity_floor fig1 fcst pal
      else .ok fig1)

/-- `_add_uncertainty(fig, m, fcst, palette)` from the source: the
invisible upper trace followed immediately by the filled lower trace,
guarded by `getattr(m, "uncertainty_samples", 0) > 0`. -/
def _add_uncertainty (fig : Figure) (m : Model) (fcst : DataFrame)
    (pal : Palette) : Except String Figure :=
  if 0 < m.uncertainty_samples.getD 0 then
    Except.bind (fcst.getCol ("ds")) (fun x =>
      Except.bind (fcst.getCol ("yhat_upper")) (fun yu =>
        Except.bind (fcst.getCol ("ds")) (fun x2 =>
          Except.bind (fcst.getCol ("yhat_lower")) (fun ylo =>
            Except.bind (paletteGet pal ("uncertainty")) (fun c =>
              .ok ((fig.add_trace (upperBandTrace x yu)).add_trace
                    (lowerBandTrace x2 ylo c)))))))
  else .ok fig

/-- `fig = fig or go.Figure()`: use the caller's figure, else a fresh one.
(A Plotly figure object defines no truthiness override, so any supplied
figure is used.) -/
def initFig (figOpt : Option Figure) : Figure :=
  figOpt.getD emptyFigure

/-- The palette resolution of `plot_forecast`:
`palette = DEFAULT_PALETTE.copy(); if colors: palette.update(colors)`.
`if colors:` is Python truthiness: `None` and the empty dict both skip the
update. -/
def resolvePalette (colors : Option Palette) : Palette :=
  match colors with
  | none => DEFAULT_PALETTE
  | some c => if c.isEmpty then DEFAULT_PALETTE else dictUpdate DEFAULT_PALETTE c

/-- The standard margin constant of the layout call. -/
def marginStd : Margin :=
  { l := 60, r := 40, t := 60, b := 60 }

/-- `title=dict(text="", x=0.5)`. -/
def titleStd : TitleCfg :=
  { text := "", x := (1/2 : Rat) }

/-- `legend=dict(orientation="h", yanchor="bottom", y=1.02)`. -/
def legendStd : LegendCfg :=
  { orientation := "h", yanchor := "bottom", y := (51/50 : Rat) }

/-- The first `fig.update_layout(...)` call of `plot_forecast`. -/
def applyLayout (fig : Figure) (xlabel ylabel : String) (width height : Nat) :
    Figure :=
  { fig with layout :=
    { fig.layout with
      width := some width, height := some height,
      margin := some marginStd, title := some titleStd,
      xaxisTitle := some xlabel, yaxisTitle := some ylabel,
      hovermode := some ("x unified") } }

/-- The legend-handling `if` of `plot_forecast`: `include_legend` installs a
horizontal legend configuration, otherwise `showlegend=False`. -/
def applyLegend (fig : Figure) (include_legend : Bool) : Figure :=
  if include_legend then
    { fig with layout := { fig.layout with legend := some legendStd } }
  else
    { fig with layout := { fig.layout with showlegend := some false } }

/-- The trace-building and layout part of `plot_forecast`, once the private
copy of the forecast and the merged palette are in hand.  Exceptions from
the helpers propagate. -/
def assembleFigure (m : Model) (fcst : DataFrame) (palette : Palette)
    (figOpt : Option Figure) (uncertainty plot_cap : Bool)
    (xlabel ylabel : String) (width height : Nat) (include_legend : Bool) :
    Except String Figure :=
  Except.bind (_add_forecast (initFig figOpt) fcst palette) (fun fig1 =>
    Except.bind (_add_observed fig1 m palette) (fun fig2 =>
      Except.bind
        (if plot_cap then _add_capacity fig2 m fcst palette else .ok fig2)
        (fun fig3 =>
          Except.bind
            (if uncertainty then _add_uncertainty fig3 m fcst palette
             else .ok fig3)
            (fun fig4 =>
              .ok (applyLegend
                    (applyLayout fig4 xlabel ylabel width height)
                    include_legend)))))

/-- `plot_forecast` from the source, on data-frame and palette values.
`fcst.copy()` is the identity on values; the aliasing content of the two
`.copy()` lines is modelled separately by `plot_forecastS`. -/
def plot_forecast (m : Model) (fcst : DataFrame) (figOpt : Option Figure)
    (uncertainty plot_cap : Bool) (xlabel ylabel : String)
    (width height : Nat) (include_legend : Bool)
    (colors : Option Palette) : Except String Figure :=
  assembleFigure m fcst (resolvePalette colors) figOpt uncertainty plot_cap
    xlabel ylabel width height include_legend

/-- `plot_forecast` with every keyword argument left at its default from
the source signature. -/
def plot_forecast_defaults (m : Model) (fcst : DataFrame) :
    Except String Figure :=
  plot_forecast m fcst none true true ("ds") ("y") 800 600 false none

/-- A store of heap-allocated Python objects: the data frames and dicts a
call can reach by reference.  References are indices. -/
structure PyState where
  tables : List DataFrame
  palettes : List Palette
deriving DecidableEq

/-- Dereference a table (a dangling reference reads an empty frame; the
theorems only use valid references). -/
def PyState.readTable (s : PyState) (r : Nat) : DataFrame :=
  s.tables.getD r ⟨[]⟩

/-- Dereference a palette dict. -/
def PyState.readPalette (s : PyState) (r : Nat) : Palette :=
  s.palettes.getD r []

/-- `df.copy()`: allocate a fresh table holding the same value and return
its reference. -/
def PyState.copyTable (s : PyState) (r : Nat) : PyState × Nat :=
  ({ s with tables := s.tables ++ [s.readTable r] }, s.tables.length)

/-- `d.copy()` on a palette dict. -/
def PyState.copyPalette (s : PyState) (r : Nat) : PyState × Nat :=
  ({ s with palettes := s.palettes ++ [s.readPalette r] }, s.palettes.length)

/-- `d.update(ov)`: in-place merge into the dict at reference `r`. -/
def PyState.updatePalette (s : PyState) (r : Nat) (ov : Palette) : PyState :=
  { s with palettes := s.palettes.set r (dictUpdate (s.readPalette r) ov) }

/-- `plot_forecast` with Python reference semantics made explicit: the
caller's forecast table and the module-level default palette live in the
store and are passed by reference; the body copies both
(`fcst = fcst.copy()`, `palette = DEFAULT_PALETTE.copy()`), updates only
the copy, and builds the figure from the copies.  Returns the figure
outcome together with the final store. -/
def plot_forecastS (s : PyState) (defRef fcstRef : Nat) (m : Model)
    (figOpt : Option Figure) (uncertainty plot_cap : Bool)
    (xlabel ylabel : String) (width height : Nat) (include_legend : Bool)
    (colors : Option Palette) : Except String Figure × PyState :=
  let c1 := s.copyTable fcstRef
  let c2 := c1.1.copyPalette defRef
  let s3 :=
    match colors with
    | none => c2.1
    | some ov => if ov.isEmpty then c2.1 else c2.1.updatePalette c2.2 ov
  (assembleFigure m (s3.readTable c1.2) (s3.readPalette c2.2) figOpt
    uncertainty plot_cap xlabel ylabel width height include_legend, s3)

/-- What `_add_observed` contributes: nothing without a history, otherwise
exactly the observed-markers trace. -/
def obsSpec (m : Model) (pal : Palette) (L : List Trace) : Prop :=
  match m.history with
  | none => L = []
  | some hdf =>
    ∃ x y c, hdf.getCol ("ds") = .ok x ∧ hdf.getCol ("y") = .ok y ∧
      paletteGet pal ("observed") = .ok c ∧ L = [observedTrace x y c]

/-- What the capacity step contributes under flag `pc`: an optional
"Maximum capacity" trace followed by an optional "Minimum capacity" trace,
each governed by its own condition. -/
def capSpec (m : Model) (fcst : DataFrame) (pal : Palette) (pc : Bool)
    (L : List Trace) : Prop :=
  ∃ L1 L2, L = L1 ++ L2 ∧
    (if pc && fcst.hasCol ("cap") then
       ∃ x y c, fcst.getCol ("ds") = .ok x ∧ fcst.getCol ("cap") = .ok y ∧
         paletteGet pal ("cap") = .ok c ∧ L1 = [maxCapTrace x y c]
     else L1 = []) ∧
    (if pc && (m.logistic_floor.getD false && fcst.hasCol ("floor")) then
       ∃ x y c, fcst.getCol ("ds") = .ok x ∧ fcst.getCol ("floor") = .ok y ∧
         paletteGet pal ("cap") = .ok c ∧ L2 = [minCapTrace x y c]
     else L2 = [])

/-- What the uncertainty step contributes under flag `u`: either nothing,
or exactly the upper-bound trace immediately followed by the filled
lower-bound trace. -/
def bandSpec (m : Model) (fcst : DataFrame) (pal : Palette) (u : Bool)
    (L : List Trace) : Prop :=
  if u && decide (0 < m.uncertainty_samples.getD 0) then
    ∃ x yu ylo c, fcst.getCol ("ds") = .ok x ∧
      fcst.getCol ("yhat_upper") = .ok yu ∧
      fcst.getCol ("yhat_lower") = .ok ylo ∧
      paletteGet pal ("uncertainty") = .ok c ∧
      L = [upperBandTrace x yu, lowerBandTrace x ylo c]
  else L = []

/-- The layout of the returned figure, as a function of the starting
figure's layout and the four layout-affecting arguments. -/
def layoutResult (base : Layout) (il : Bool) (xl yl : String) (w h : Nat) :
    Layout :=
  if il then
    { width := some w, height := some h, margin := some marginStd,
      title := some titleStd, xaxisTitle := some xl, yaxisTitle := some yl,
      hovermode := some ("x unified"), legend := some legendStd,
      showlegend := base.showlegend }
  else
    { width := some w, height := some h, margin := some marginStd,
      title := some titleStd, xaxisTitle := some xl, yaxisTitle := some yl,
      hovermode := some ("x unified"), legend := base.legend,
      showlegend := some false }

/-- Evaluation device for the concrete witnesses: the figure inside a
successful result. -/
def figOf (e : Except String Figure) : Figure :=
  match e with
  | .ok f => f
  | .error _ => emptyFigure

@[simp]
theorem except_bind_ok {α β : Type} (a : α) (f : α → Except String β) :
    Except.bind (Except.ok a) f = f a := rfl

@[simp]
theorem except_bind_error {α β : Type} (e : String)
    (f : α → Except String β) :
    Except.bind (Except.error e : Except String α) f = Except.error e := rfl

@[simp]
theorem Figure.add_trace_data (fig : Figure) (t : Trace) :
    (fig.add_trace t).data = fig.data ++ [t] := rfl

@[simp]
theorem Figure.add_trace_layout (fig : Figure) (t : Trace) :
    (fig.add_trace t).layout = fig.layout := rfl

theorem add_forecast_ok {fig fig' : Figure} {fcst : DataFrame} {pal : Palette}
    (h : _add_forecast fig fcst pal = .ok fig') :
    ∃ x y c, fcst.getCol ("ds") = .ok x ∧ fcst.getCol ("yhat") = .ok y ∧
      paletteGet pal ("forecast") = .ok c ∧
      fig' = { fig with data := fig.data ++ [forecastTrace x y c] } := by
  unfold _add_forecast at h
  cases h1 : fcst.getCol ("ds") with
  | error e => rw [h1] at h; exact Except.noConfusion h
  | ok x =>
    rw [h1] at h
    simp only [except_bind_ok] at h
    cases h2 : fcst.getCol ("yhat") with
    | error e => rw [h2] at h; exact Except.noConfusion h
    | ok y =>
      rw [h2] at h
      simp only [except_bind_ok] at h
      cases h3 : paletteGet pal ("forecast") with
      | error e => rw [h3] at h; exact Except.noConfusion h
      | ok c =>
        rw [h3] at h
        simp only [except_bind_ok] at h
        exact ⟨x, y, c, rfl, rfl, rfl, (Except.ok.inj h).symm⟩

theorem add_observed_hist_ok {fig fig' : Figure} {hdf : DataFrame}
    {pal : Palette} (h : _add_observed_hist fig hdf pal = .ok fig') :
    ∃ x y c, hdf.getCol ("ds") = .ok x ∧ hdf.getCol ("y") = .ok y ∧
      paletteGet pal ("observed") = .ok c ∧
      fig' = { fig with data := fig.data ++ [observedTrace x y c] } := by
  unfold _add_observed_hist at h
  cases h1 : hdf.getCol ("ds") with
  | error e => rw [h1] at h; exact Except.noConfusion h
  | ok x =>
    rw [h1] at h
    simp only [except_bind_ok] at h
    cases h2 : hdf.getCol ("y") with
    | error e => rw [h2] at h; exact Except.noConfusion h
    | ok y =>
      rw [h2] at h
      simp only [except_bind_ok] at h
      cases h3 : paletteGet pal ("observed") with
      | error e => rw [h3] at h; exact Except.noConfusion h
      | ok c =>
        rw [h3] at h
        simp only [except_bind_ok] at h
        exact ⟨x, y, c, rfl, rfl, rfl, (Except.ok.inj h).symm⟩

theorem add_observed_ok {fig fig' : Figure} {m : Model} {pal : Palette}
    (h : _add_observed fig m pal = .ok fig') :
    ∃ L, fig' = { fig with data := fig.data ++ L } ∧ obsSpec m pal L := by
  unfold _add_observed at h
  cases hh : m.history with
  | none =>
    rw [hh] at h
    refine ⟨[], ?_, ?_⟩
    · simpa using (Except.ok.inj h).symm
    · simp [obsSpec, hh]
  | some hdf =>
    rw [hh] at h
    obtain ⟨x, y, c, h1, h2, h3, hfg⟩ :=
      add_observed_hist_ok (show _add_observed_hist fig hdf pal = .ok fig' from h)
    refine ⟨[observedTrace x y c], hfg, ?_⟩
    simp only [obsSpec, hh]
    exact ⟨x, y, c, h1, h2, h3, rfl⟩

theorem add_capacity_max_ok {fig fig' : Figure} {fcst : DataFrame}
    {pal : Palette} (h : _add_capacity_max fig fcst pal = .ok fig') :
    ∃ x y c, fcst.getCol ("ds") = .ok x ∧ fcst.getCol ("cap") = .ok y ∧
      paletteGet pal ("cap") = .ok c ∧
      fig' = { fig with data := fig.data ++ [maxCapTrace x y c] } := by
  unfold _add_capacity_max at h
  cases h1 : fcst.getCol ("ds") with
  | error e => rw [h1] at h; exact Except.noConfusion h
  | ok x =>
    rw [h1] at h
    simp only [except_bind_ok] at h
    cases h2 : fcst.getCol ("cap") with
    | error e => rw [h2] at h; exact Except.noConfusion h
    | ok y =>
      rw [h2] at h
      simp only [except_bind_ok] at h
      cases h3 : paletteGet pal ("cap") with
      | error e => rw [h3] at h; exact Except.noConfusion h
      | ok c =>
        rw [h3] at h
        simp only [except_bind_ok] at h
        exact ⟨x, y, c, rfl, rfl, rfl, (Except.ok.inj h).symm⟩

theorem add_capacity_floor_ok {fig fig' : Figure} {fcst : DataFrame}
    {pal : Palette} (h : _add_capacity_floor fig fcst pal = .ok fig') :
    ∃ x y c, fcst.getCol ("ds") = .ok x ∧ fcst.getCol ("floor") = .ok y ∧
      paletteGet pal ("cap") = .ok c ∧
      fig' = { fig with data := fig.data ++ [minCapTrace x y c] } := by
  unfold _add_capacity_floor at h
  cases h1 : fcst.getCol ("ds") with
  | error e => rw [h1] at h; exact Except.noConfusion h
  | ok x =>
    rw [h1] at h
    simp only [except_bind_ok] at h
    cases h2 : fcst.getCol ("floor") with
    | error e => rw [h2] at h; exact Except.noConfusion h
    | ok y =>
      rw [h2] at h
      simp only [except_bind_ok] at h
      cases h3 : paletteGet pal ("cap") with
      | error e => rw [h3] at h; exact Except.noConfusion h
      | ok c =>
        rw [h3] at h
        simp only [except_bind_ok] at h
        exact ⟨x, y, c, rfl, rfl, rfl, (Except.ok.inj h).symm⟩

theorem add_capacity_ok {fig fig' : Figure} {m : Model} {fcst : DataFrame}
    {pal : Palette} (h : _add_capacity fig m fcst pal = .ok fig') :
    ∃ L, fig' = { fig with data := fig.data ++ L } ∧
      capSpec m fcst pal true L := by
  unfold _add_capacity at h
  cases hc : fcst.hasCol ("cap") with
  | false =>
    rw [hc, if_neg Bool.false_ne_true] at h
    simp only [except_bind_ok] at h
    cases hf : m.logistic_floor.getD false && fcst.hasCol ("floor") with
    | false =>
      rw [hf, if_neg Bool.false_ne_true] at h
      refine ⟨[], ?_, [], [], rfl, ?_, ?_⟩
      · simpa using (Except.ok.inj h).symm
      · rw [hc]; simp
      · rw [hf]; simp
    | true =>
      rw [hf, if_pos rfl] at h
      obtain ⟨x, y, c, h1, h2, h3, hfg⟩ := add_capacity_floor_ok h
      refine ⟨[minCapTrace x y c], hfg, [], [minCapTrace x y c], rfl, ?_, ?_⟩
      · rw [hc]; simp
      · rw [hf, if_pos (show (true && true) = true from rfl)]
        exact ⟨x, y, c, h1, h2, h3, rfl⟩
  | true =>
    rw [hc, if_pos rfl] at h
    cases hmax : _add_capacity_max fig fcst pal with
    | error e => rw [hmax] at h; exact Except.noConfusion h
    | ok fig1 =>
      rw [hmax] at h
      simp only [except_bind_ok] at h
      obtain ⟨x, y, c, h1, h2, h3, hfg1⟩ := add_capacity_max_ok hmax
      cases hf : m.logistic_floor.getD false && fcst.hasCol ("floor") with
      | false =>
        rw [hf, if_neg Bool.false_ne_true] at h
        refine ⟨[maxCapTrace x y c], ?_, [maxCapTrace x y c], [], by simp,
          ?_, ?_⟩
        · rw [← Except.ok.inj h, hfg1]
        · rw [hc, if_pos (show (true && true) = true from rfl)]
          exact ⟨x, y, c, h1, h2, h3, rfl⟩
        · rw [hf]; simp
      | true =>
        rw [hf, if_pos rfl] at h
        obtain ⟨x2, y2, c2, h4, h5, h6, hfg2⟩ := add_capacity_floor_ok h
        refine ⟨[maxCapTrace x y c, minCapTrace x2 y2 c2], ?_,
          [maxCapTrace x y c], [minCapTrace x2 y2 c2], rfl, ?_, ?_⟩
        · rw [hfg2, hfg1]
          simp
        · rw [hc, if_pos (show (true && true) = true from rfl)]
          exact ⟨x, y, c, h1, h2, h3, rfl⟩
        · rw [hf, if_pos (show (true && true) = true from rfl)]
          exact ⟨x2, y2, c2, h4, h5, h6, rfl⟩

theorem add_uncertainty_ok {fig fig' : Figure} {m : Model} {fcst : DataFrame}
    {pal : Palette} (h : _add_uncertainty fig m fcst pal = .ok fig') :
    ∃ L, fig' = { fig with data := fig.data ++ L } ∧
      bandSpec m fcst pal true L := by
  unfold _add_uncertainty at h
  by_cases hp : 0 < m.uncertainty_samples.getD 0
  · rw [if_pos hp] at h
    cases h1 : fcst.getCol ("ds") with
    | error e => rw [h1] at h; exact Except.noConfusion h
    | ok x =>
      rw [h1] at h
      simp only [except_bind_ok] at h
      cases h2 : fcst.getCol ("yhat_upper") with
      | error e => rw [h2] at h; exact Except.noConfusion h
      | ok yu =>
        rw [h2] at h
        simp only [except_bind_ok] at h
        cases h3 : fcst.getCol ("yhat_lower") with
        | error e => rw [h3] at h; exact Except.noConfusion h
        | ok ylo =>
          rw [h3] at h
          simp only [except_bind_ok] at h
          cases h4 : paletteGet pal ("uncertainty") with
          | error e => rw [h4] at h; exact Except.noConfusion h
          | ok c =>
            rw [h4] at h
            simp only [except_bind_ok] at h
            refine ⟨[upperBandTrace x yu, lowerBandTrace x ylo c], ?_, ?_⟩
            · rw [← Except.ok.inj h]
              simp [Figure.add_trace]
            · unfold bandSpec
              rw [if_pos (by simp [hp] :
                    (true && decide (0 < m.uncertainty_samples.getD 0)) = true)]
              exact ⟨x, yu, ylo, c, h1, h2, h3, h4, rfl⟩
  · rw [if_neg hp] at h
    refine ⟨[], ?_, ?_⟩
    · simpa using (Except.ok.inj h).symm
    · simp [bandSpec, hp]

@[simp]
theorem applyLegend_applyLayout_data (f : Figure) (il : Bool)
    (xl yl : String) (w h : Nat) :
    (applyLegend (applyLayout f xl yl w h) il).data = f.data := by
  cases il <;> rfl

@[simp]
theorem applyLegend_applyLayout_layout (f : Figure) (il : Bool)
    (xl yl : String) (w h : Nat) :
    (applyLegend (applyLayout f xl yl w h) il).layout =
      layoutResult f.layout il xl yl w h := by
  cases il <;> rfl

/-- Structural characterisation of every successful `plot_forecast` call:
the returned figure is the starting figure's traces followed by the
forecast trace, then the observed, capacity and uncertainty contributions
in that order, with the layout rewritten by the final two
`update_layout` calls. -/
theorem plot_forecast_ok_struct {m : Model} {fcst : DataFrame}
    {figOpt : Option Figure} {u pc : Bool} {xl yl : String} {w h : Nat}
    {il : Bool} {colors : Option Palette} {fig : Figure}
    (hok : plot_forecast m fcst figOpt u pc xl yl w h il colors = .ok fig) :
    ∃ x y c obsL capL bandL,
      fcst.getCol ("ds") = .ok x ∧ fcst.getCol ("yhat") = .ok y ∧
      paletteGet (resolvePalette colors) ("forecast") = .ok c ∧
      fig.data = (initFig figOpt).data ++
        (forecastTrace x y c :: (obsL ++ capL ++ bandL)) ∧
      fig.layout = layoutResult (initFig figOpt).layout il xl yl w h ∧
      obsSpec m (resolvePalette colors) obsL ∧
      capSpec m fcst (resolvePalette colors) pc capL ∧
      bandSpec m fcst (resolvePalette colors) u bandL := by
  unfold plot_forecast assembleFigure at hok
  cases h1 : _add_forecast (initFig figOpt) fcst (resolvePalette colors) with
  | error e => rw [h1] at hok; exact Except.noConfusion hok
  | ok fig1 =>
    rw [h1] at hok
    simp only [except_bind_ok] at hok
    cases h2 : _add_observed fig1 m (resolvePalette colors) with
    | error e => rw [h2] at hok; exact Except.noConfusion hok
    | ok fig2 =>
      rw [h2] at hok
      simp only [except_bind_ok] at hok
      cases h3 : (if pc then _add_capacity fig2 m fcst (resolvePalette colors)
                  else .ok fig2) with
      | error e => rw [h3] at hok; exact Except.noConfusion hok
      | ok fig3 =>
        rw [h3] at hok
        simp only [except_bind_ok] at hok
        cases h4 : (if u then _add_uncertainty fig3 m fcst (resolvePalette colors)
                    else .ok fig3) with
        | error e => rw [h4] at hok; exact Except.noConfusion hok
        | ok fig4 =>
          rw [h4] at hok
          simp only [except_bind_ok] at hok
          have hfig : fig = applyLegend (applyLayout fig4 xl yl w h) il :=
            (Except.ok.inj hok).symm
          obtain ⟨x, y, c, hxd, hxy, hxc, hf1⟩ := add_forecast_ok h1
          obtain ⟨obsL, hf2, hobs⟩ := add_observed_ok h2
          have hcap : ∃ capL, fig3 = { fig2 with data := fig2.data ++ capL } ∧
              capSpec m fcst (resolvePalette colors) pc capL := by
            cases pc with
            | false =>
              rw [if_neg Bool.false_ne_true] at h3
              refine ⟨[], ?_, [], [], rfl, by simp, by simp⟩
              simpa using (Except.ok.inj h3).symm
            | true =>
              rw [if_pos rfl] at h3
              exact add_capacity_ok h3
          have hband : ∃ bandL,
              fig4 = { fig3 with data := fig3.data ++ bandL } ∧
              bandSpec m fcst (resolvePalette colors) u bandL := by
            cases u with
            | false =>
              rw [if_neg Bool.false_ne_true] at h4
              refine ⟨[], ?_, by simp [bandSpec]⟩
              simpa using (Except.ok.inj h4).symm
            | true =>
              rw [if_pos rfl] at h4
              exact add_uncertainty_ok h4
          obtain ⟨capL, hf3, hcapS⟩ := hcap
          obtain ⟨bandL, hf4, hbandS⟩ := hband
          refine ⟨x, y, c, obsL, capL, bandL, hxd, hxy, hxc, ?_, ?_,
            hobs, hcapS, hbandS⟩
          · rw [hfig, applyLegend_applyLayout_data, hf4, hf3, hf2, hf1]
            simp
          · rw [hfig, applyLegend_applyLayout_layout, hf4, hf3, hf2, hf1]

theorem dictGet?_cons (q : String × String) (t : Palette) (k : String) :
    dictGet? (q :: t) k = if q.1 == k then some q.2 else dictGet? t k := by
  cases hq : q.1 == k with
  | true => simp [dictGet?, List.find?_cons, hq]
  | false => simp [dictGet?, List.find?_cons, hq]

theorem dictGet?_append (l1 l2 : Palette) (k : String) :
    dictGet? (l1 ++ l2) k = (dictGet? l1 k).or (dictGet? l2 k) := by
  unfold dictGet?
  rw [List.find?_append]
  cases l1.find? (fun p => p.1 == k) <;> simp

theorem dictGet?_updateMap (b o : Palette) (k : String) :
    dictGet? (b.map (fun p =>
      match dictGet? o p.1 with | some v => (p.1, v) | none => p)) k =
      match dictGet? b k with
      | none => none
      | some v =>
        match dictGet? o k with | some w => some w | none => some v := by
  induction b with
  | nil => rfl
  | cons q t ih =>
    simp only [List.map_cons, dictGet?_cons]
    cases hq : q.1 == k with
    | true =>
      have hqk : q.1 = k := eq_of_beq hq
      subst hqk
      cases ho : dictGet? o q.1 with
      | none => simp [ho, hq]
      | some v => simp [ho, hq]
    | false =>
      cases ho : dictGet? o q.1 with
      | none => simp [ho, hq, ih]
      | some v => simp [ho, hq, ih]

theorem find?_filter_of_baseMiss (b o : Palette) (k : String)
    (hb : dictGet? b k = none) :
    (o.filter (fun p => (dictGet? b p.1).isNone)).find?
        (fun p => p.1 == k) =
      o.find? (fun p => p.1 == k) := by
  induction o with
  | nil => rfl
  | cons q t ih =>
    cases hq : q.1 == k with
    | true =>
      have hkeep : (dictGet? b q.1).isNone = true := by
        rw [eq_of_beq hq, hb]; rfl
      simp [List.filter_cons, List.find?_cons, hkeep, hq]
    | false =>
      cases hk : (dictGet? b q.1).isNone with
      | false => simp [List.filter_cons, List.find?_cons, hk, hq, ih]
      | true => simp [List.filter_cons, List.find?_cons, hk, hq, ih]

/-- Key-by-key description of the dict merge realised by `dictUpdate`: an
overridden key reads the override, any other key reads the base. -/
theorem dictGet?_dictUpdate (b o : Palette) (k : String) :
    dictGet? (dictUpdate b o) k =
      match dictGet? o k with
      | some v => some v
      | none => dictGet? b k := by
  unfold dictUpdate
  rw [dictGet?_append, dictGet?_updateMap]
  cases hb : dictGet? b k with
  | none =>
    have hfil : dictGet? (o.filter
        (fun p => (dictGet? b p.1).isNone)) k = dictGet? o k :=
      calc dictGet? (o.filter (fun p => (dictGet? b p.1).isNone)) k
          = ((o.filter (fun p => (dictGet? b p.1).isNone)).find?
              (fun p => p.1 == k)).map (fun p => p.2) := rfl
        _ = (o.find? (fun p => p.1 == k)).map (fun p => p.2) := by
              rw [find?_filter_of_baseMiss b o k hb]
        _ = dictGet? o k := rfl
    cases ho : dictGet? o k <;> simp [ho, hfil]
  | some v =>
    cases ho : dictGet? o k <;> simp [ho]

theorem find?_filter_not_contains (l : List (String × List Int))
    (names : List String) (c : String) (h : names.contains c = false) :
    (l.filter (fun p => !(names.contains p.1))).find?
        (fun p => p.1 == c) =
      l.find? (fun p => p.1 == c) := by
  induction l with
  | nil => rfl
  | cons q t ih =>
    cases hq : q.1 == c with
    | true =>
      have hkeep : (!(names.contains q.1)) = true := by
        rw [eq_of_beq hq, h]; rfl
      rw [@List.filter_cons_of_pos _ (fun p => !(names.contains p.1)) q t
          hkeep,
        @List.find?_cons_of_pos _ (fun p => p.1 == c) q
          (t.filter (fun p => !(names.contains p.1))) hq,
        @List.find?_cons_of_pos _ (fun p => p.1 == c) q t hq]
    | false =>
      have hq' : ¬ ((fun p : String × List Int => p.1 == c) q = true) := by
        simp [hq]
      cases hk : (!(names.contains q.1)) with
      | false =>
        have hk' : ¬ ((fun p : String × List Int =>
            !(names.contains p.1)) q = true) := by
          intro hcontra
          have hcb : (!(names.contains q.1)) = true := hcontra
          rw [hk] at hcb
          exact Bool.false_ne_true hcb
        rw [@List.filter_cons_of_neg _ (fun p => !(names.contains p.1)) q t
            hk',
          ih, @List.find?_cons_of_neg _ (fun p => p.1 == c) q t hq']
      | true =>
        rw [@List.filter_cons_of_pos _ (fun p => !(names.contains p.1)) q t
            hk,
          @List.find?_cons_of_neg _ (fun p => p.1 == c) q
            (t.filter (fun p => !(names.contains p.1))) hq',
          ih, @List.find?_cons_of_neg _ (fun p => p.1 == c) q t hq']

theorem getCol_removeCols (df : DataFrame) (names : List String) (c : String)
    (h : names.contains c = false) :
    (df.removeCols names).getCol c = df.getCol c := by
  obtain ⟨l⟩ := df
  simp only [DataFrame.getCol, DataFrame.removeCols]
  rw [find?_filter_not_contains l names c h]

theorem hasCol_removeCols (df : DataFrame) (names : List String) (c : String)
    (h : names.contains c = false) :
    (df.removeCols names).hasCol c = df.hasCol c := by
  obtain ⟨l⟩ := df
  simp only [DataFrame.hasCol, DataFrame.removeCols]
  rw [find?_filter_not_contains l names c h]

@[simp]
theorem forecastTrace_name (x y : List Int) (c : String) :
    (forecastTrace x y c).name = some ("Forecast") := rfl

@[simp]
theorem forecastTrace_fill (x y : List Int) (c : String) :
    (forecastTrace x y c).fill = none := rfl

@[simp]
theorem observedTrace_name (x y : List Int) (c : String) :
    (observedTrace x y c).name = some ("Observed data points") := rfl

@[simp]
theorem observedTrace_fill (x y : List Int) (c : String) :
    (observedTrace x y c).fill = none := rfl

@[simp]
theorem maxCapTrace_name (x y : List Int) (c : String) :
    (maxCapTrace x y c).name = some ("Maximum capacity") := rfl

@[simp]
theorem maxCapTrace_fill (x y : List Int) (c : String) :
    (maxCapTrace x y c).fill = none := rfl

@[simp]
theorem minCapTrace_name (x y : List Int) (c : String) :
    (minCapTrace x y c).name = some ("Minimum capacity") := rfl

@[simp]
theorem minCapTrace_fill (x y : List Int) (c : String) :
    (minCapTrace x y c).fill = none := rfl

@[simp]
theorem upperBandTrace_name (x y : List Int) :
    (upperBandTrace x y).name = none := rfl

@[simp]
theorem upperBandTrace_fill (x y : List Int) :
    (upperBandTrace x y).fill = none := rfl

@[simp]
theorem lowerBandTrace_name (x y : List Int) (c : String) :
    (lowerBandTrace x y c).name = some ("Uncertainty interval") := rfl

@[simp]
theorem lowerBandTrace_fill (x y : List Int) (c : String) :
    (lowerBandTrace x y c).fill = some ("tonexty") := rfl

theorem obsSpec_cases {m : Model} {pal : Palette} {L : List Trace}
    (h : obsSpec m pal L) :
    (m.history = none ∧ L = []) ∨
    (∃ hdf x y c, m.history = some hdf ∧ hdf.getCol ("ds") = .ok x ∧
      hdf.getCol ("y") = .ok y ∧ paletteGet pal ("observed") = .ok c ∧
      L = [observedTrace x y c]) := by
  unfold obsSpec at h
  cases hh : m.history with
  | none =>
    rw [hh] at h
    exact Or.inl ⟨rfl, h⟩
  | some hdf =>
    rw [hh] at h
    obtain ⟨x, y, c, h1, h2, h3, h4⟩ := h
    exact Or.inr ⟨hdf, x, y, c, rfl, h1, h2, h3, h4⟩

theorem capSpec_cases {m : Model} {fcst : DataFrame} {pal : Palette}
    {pc : Bool} {L : List Trace} (h : capSpec m fcst pal pc L) :
    ∃ L1 L2, L = L1 ++ L2 ∧
      (((pc && fcst.hasCol ("cap")) = true ∧
        ∃ x y c, fcst.getCol ("ds") = .ok x ∧ fcst.getCol ("cap") = .ok y ∧
          paletteGet pal ("cap") = .ok c ∧ L1 = [maxCapTrace x y c]) ∨
       ((pc && fcst.hasCol ("cap")) = false ∧ L1 = [])) ∧
      (((pc && (m.logistic_floor.getD false && fcst.hasCol ("floor"))) = true ∧
        ∃ x y c, fcst.getCol ("ds") = .ok x ∧ fcst.getCol ("floor") = .ok y ∧
          paletteGet pal ("cap") = .ok c ∧ L2 = [minCapTrace x y c]) ∨
       ((pc && (m.logistic_floor.getD false && fcst.hasCol ("floor"))) = false ∧
        L2 = [])) := by
  obtain ⟨L1, L2, hL, h1, h2⟩ := h
  refine ⟨L1, L2, hL, ?_, ?_⟩
  · cases hc : (pc && fcst.hasCol ("cap")) with
    | true =>
      rw [hc, if_pos rfl] at h1
      exact Or.inl ⟨rfl, h1⟩
    | false =>
      rw [hc, if_neg Bool.false_ne_true] at h1
      exact Or.inr ⟨rfl, h1⟩
  · cases hf : (pc && (m.logistic_floor.getD false && fcst.hasCol ("floor"))) with
    | true =>
      rw [hf, if_pos rfl] at h2
      exact Or.inl ⟨rfl, h2⟩
    | false =>
      rw [hf, if_neg Bool.false_ne_true] at h2
      exact Or.inr ⟨rfl, h2⟩

theorem bandSpec_cases {m : Model} {fcst : DataFrame} {pal : Palette}
    {u : Bool} {L : List Trace} (h : bandSpec m fcst pal u L) :
    ((u && decide (0 < m.uncertainty_samples.getD 0)) = true ∧
      ∃ x yu ylo c, fcst.getCol ("ds") = .ok x ∧
        fcst.getCol ("yhat_upper") = .ok yu ∧
        fcst.getCol ("yhat_lower") = .ok ylo ∧
        paletteGet pal ("uncertainty") = .ok c ∧
        L = [upperBandTrace x yu, lowerBandTrace x ylo c]) ∨
    ((u && decide (0 < m.uncertainty_samples.getD 0)) = false ∧ L = []) := by
  unfold bandSpec at h
  cases hc : (u && decide (0 < m.uncertainty_samples.getD 0)) with
  | true =>
    rw [hc, if_pos rfl] at h
    exact Or.inl ⟨rfl, h⟩
  | false =>
    rw [hc, if_neg Bool.false_ne_true] at h
    exact Or.inr ⟨rfl, h⟩

theorem pre_band_not_band {m : Model} {fcst : DataFrame} {pal : Palette}
    {pc : Bool} {obsL capL : List Trace} (x y : List Int) (c : String)
    (hobs : obsSpec m pal obsL) (hcap : capSpec m fcst pal pc capL) :
    ∀ t ∈ forecastTrace x y c :: (obsL ++ capL),
      t.name ≠ some ("Uncertainty interval") ∧ t.fill = none := by
  intro t ht
  rcases List.mem_cons.mp ht with rfl | hmem
  · exact ⟨by simp, rfl⟩
  · rcases List.mem_append.mp hmem with hob | hcp
    · rcases obsSpec_cases hobs with ⟨_, hL⟩ | ⟨hdf, a, b, d, _, _, _, _, hL⟩
      · subst hL; simp at hob
      · subst hL
        rw [List.mem_singleton] at hob
        subst hob
        exact ⟨by simp, rfl⟩
    · rcases capSpec_cases hcap with ⟨L1, L2, hL, hc1, hc2⟩
      subst hL
      rcases List.mem_append.mp hcp with h1 | h2
      · rcases hc1 with ⟨_, a, b, d, _, _, _, hL1⟩ | ⟨_, hL1⟩
        · subst hL1
          rw [List.mem_singleton] at h1
          subst h1
          exact ⟨by simp, rfl⟩
        · subst hL1; simp at h1
      · rcases hc2 with ⟨_, a, b, d, _, _, _, hL2⟩ | ⟨_, hL2⟩
        · subst hL2
          rw [List.mem_singleton] at h2
          subst h2
          exact ⟨by simp, rfl⟩
        · subst hL2; simp at h2

/-- C1: for every model and forecast table, a successful call appends the
uncertainty band exactly when `uncertainty` is true and the model's sample
count is positive; when present, the band is the invisible upper-bound
trace (zero line width, skipped hover, excluded from the legend)
immediately followed by the lower-bound trace (filled to the previous
trace with the `uncertainty` colour, labelled "Uncertainty interval"), and
no other added trace carries a fill or that label. -/
theorem claim_uncertainty_band
    (m : Model) (fcst : DataFrame) (figOpt : Option Figure) (u pc : Bool)
    (xl yl : String) (w hh : Nat) (il : Bool) (colors : Option Palette)
    (fig : Figure)
    (hok : plot_forecast m fcst figOpt u pc xl yl w hh il colors = .ok fig) :
    ∃ added, fig.data = (initFig figOpt).data ++ added ∧
      (if u && decide (0 < m.uncertainty_samples.getD 0) then
        ∃ A x yu ylo c,
          fcst.getCol ("ds") = .ok x ∧
          fcst.getCol ("yhat_upper") = .ok yu ∧
          fcst.getCol ("yhat_lower") = .ok ylo ∧
          paletteGet (resolvePalette colors) ("uncertainty") = .ok c ∧
          added = A ++ [upperBandTrace x yu, lowerBandTrace x ylo c] ∧
          (∀ t ∈ A, t.name ≠ some ("Uncertainty interval") ∧
            t.fill = none) ∧
          (upperBandTrace x yu).line =
            some { color := none, width := some 0, dash := none } ∧
          (upperBandTrace x yu).hoverinfo = some ("skip") ∧
          (upperBandTrace x yu).showlegend = some false ∧
          (lowerBandTrace x ylo c).fill = some ("tonexty") ∧
          (lowerBandTrace x ylo c).fillcolor = some c ∧
          (lowerBandTrace x ylo c).name = some ("Uncertainty interval")
      else ∀ t ∈ added, t.name ≠ some ("Uncertainty interval") ∧
        t.fill = none) := by
  obtain ⟨x, y, c, obsL, capL, bandL, hxd, hxy, hxc, hdata, hlay, hobs,
    hcap, hband⟩ := plot_forecast_ok_struct hok
  have hpre := pre_band_not_band x y c hobs hcap
  refine ⟨forecastTrace x y c :: (obsL ++ capL ++ bandL), hdata, ?_⟩
  rcases bandSpec_cases hband with
    ⟨hcnd, bx, byu, bylo, bc, hbd, hbu, hbl, hbc, hbL⟩ | ⟨hcnd, hbL⟩
  · rw [hcnd, if_pos rfl]
    subst hbL
    refine ⟨forecastTrace x y c :: (obsL ++ capL), bx, byu, bylo, bc,
      hbd, hbu, hbl, hbc, ?_, hpre, rfl, rfl, rfl, rfl, rfl, rfl⟩
    simp
  · rw [hcnd, if_neg Bool.false_ne_true]
    subst hbL
    intro t ht
    apply hpre
    simpa using ht

theorem claim_uncertainty_band_witness :
    ∃ added,
      (figOf (plot_forecast ⟨none, none, some 10⟩
        ⟨[("ds", [0, 1]), ("yhat", [1, 2]), ("yhat_upper", [2, 3]),
          ("yhat_lower", [0, 1])]⟩
        none true true ("ds") ("y") 800 600 false none)).data =
      (initFig none).data ++ added := by
  obtain ⟨added, hadd, _⟩ := claim_uncertainty_band
    ⟨none, none, some 10⟩
    ⟨[("ds", [0, 1]), ("yhat", [1, 2]), ("yhat_upper", [2, 3]),
      ("yhat_lower", [0, 1])]⟩
    none true true ("ds") ("y") 800 600 false none
    (figOf (plot_forecast ⟨none, none, some 10⟩
      ⟨[("ds", [0, 1]), ("yhat", [1, 2]), ("yhat_upper", [2, 3]),
        ("yhat_lower", [0, 1])]⟩
      none true true ("ds") ("y") 800 600 false none))
    rfl
  exact ⟨added, hadd⟩

/-- C2: for every successful call, a "Maximum capacity" trace is among the
added traces exactly when `plot_cap` is true and the table has a `cap`
column, and a "Minimum capacity" trace exactly when additionally the model
signals `logistic_floor` and the table has a `floor` column; the two
conditions act independently, and any such trace is the dashed line over
the corresponding column. -/
theorem claim_capacity_traces
    (m : Model) (fcst : DataFrame) (figOpt : Option Figure) (u pc : Bool)
    (xl yl : String) (w hh : Nat) (il : Bool) (colors : Option Palette)
    (fig : Figure)
    (hok : plot_forecast m fcst figOpt u pc xl yl w hh il colors = .ok fig) :
    ∃ added, fig.data = (initFig figOpt).data ++ added ∧
      ((∃ t ∈ added, t.name = some ("Maximum capacity")) ↔
        (pc = true ∧ fcst.hasCol ("cap") = true)) ∧
      ((∃ t ∈ added, t.name = some ("Minimum capacity")) ↔
        (pc = true ∧ m.logistic_floor.getD false = true ∧
          fcst.hasCol ("floor") = true)) ∧
      (∀ t ∈ added, t.name = some ("Maximum capacity") →
        ∃ x y c, fcst.getCol ("ds") = .ok x ∧ fcst.getCol ("cap") = .ok y ∧
          paletteGet (resolvePalette colors) ("cap") = .ok c ∧
          t = maxCapTrace x y c) ∧
      (∀ t ∈ added, t.name = some ("Minimum capacity") →
        ∃ x y c, fcst.getCol ("ds") = .ok x ∧
          fcst.getCol ("floor") = .ok y ∧
          paletteGet (resolvePalette colors) ("cap") = .ok c ∧
          t = minCapTrace x y c) := by
  obtain ⟨x, y, c, obsL, capL, bandL, hxd, hxy, hxc, hdata, hlay, hobs,
    hcap, hband⟩ := plot_forecast_ok_struct hok
  obtain ⟨L1, L2, hcapL, hc1, hc2⟩ := capSpec_cases hcap
  subst hcapL
  have hmem : ∀ t : Trace,
      t ∈ forecastTrace x y c :: (obsL ++ (L1 ++ L2) ++ bandL) ↔
      (t = forecastTrace x y c ∨ t ∈ obsL ∨ t ∈ L1 ∨ t ∈ L2 ∨
        t ∈ bandL) := by
    intro t
    simp [or_assoc]
  have hobsName : ∀ t ∈ obsL, t.name = some ("Observed data points") := by
    rcases obsSpec_cases hobs with ⟨_, hL⟩ | ⟨hdf, a, b, d, _, _, _, _, hL⟩ <;>
      subst hL
    · intro t ht; simp at ht
    · intro t ht
      rw [List.mem_singleton] at ht
      subst ht
      simp
  have hbandName : ∀ t ∈ bandL,
      t.name = none ∨ t.name = some ("Uncertainty interval") := by
    rcases bandSpec_cases hband with
      ⟨_, a, b2, b3, d, _, _, _, _, hL⟩ | ⟨_, hL⟩ <;> subst hL
    · intro t ht
      rcases List.mem_cons.mp ht with rfl | ht2
      · exact Or.inl rfl
      · rw [List.mem_singleton] at ht2
        subst ht2
        exact Or.inr rfl
    · intro t ht; simp at ht
  refine ⟨forecastTrace x y c :: (obsL ++ (L1 ++ L2) ++ bandL), hdata,
    ?_, ?_, ?_, ?_⟩
  · constructor
    · rintro ⟨t, ht, hname⟩
      rcases (hmem t).mp ht with rfl | hob | h1 | h2 | hb
      · simp at hname
      · rw [hobsName t hob] at hname; simp at hname
      · rcases hc1 with ⟨hcond, _⟩ | ⟨_, hL1⟩
        · simpa using hcond
        · subst hL1; simp at h1
      · rcases hc2 with ⟨_, a, b2, d, _, _, _, hL2⟩ | ⟨_, hL2⟩ <;> subst hL2
        · rw [List.mem_singleton] at h2
          subst h2
          simp at hname
        · simp at h2
      · rcases hbandName t hb with hn | hn <;> rw [hn] at hname <;>
          simp at hname
    · rintro ⟨hpc, hcol⟩
      rcases hc1 with ⟨_, a, b2, d, _, _, _, hL1⟩ | ⟨hcond, _⟩
      · subst hL1
        exact ⟨maxCapTrace a b2 d, by simp, by simp⟩
      · rw [hpc, hcol] at hcond
        simp at hcond
  · constructor
    · rintro ⟨t, ht, hname⟩
      rcases (hmem t).mp ht with rfl | hob | h1 | h2 | hb
      · simp at hname
      · rw [hobsName t hob] at hname; simp at hname
      · rcases hc1 with ⟨_, a, b2, d, _, _, _, hL1⟩ | ⟨_, hL1⟩ <;> subst hL1
        · rw [List.mem_singleton] at h1
          subst h1
          simp at hname
        · simp at h1
      · rcases hc2 with ⟨hcond, _⟩ | ⟨_, hL2⟩
        · have := hcond
          simp only [Bool.and_eq_true] at this
          exact ⟨this.1, this.2.1, this.2.2⟩
        · subst hL2; simp at h2
      · rcases hbandName t hb with hn | hn <;> rw [hn] at hname <;>
          simp at hname
    · rintro ⟨hpc, hfl, hcol⟩
      rcases hc2 with ⟨_, a, b2, d, _, _, _, hL2⟩ | ⟨hcond, _⟩
      · subst hL2
        exact ⟨minCapTrace a b2 d, by simp, by simp⟩
      · rw [hpc, hfl, hcol] at hcond
        simp at hcond
  · intro t ht hname
    rcases (hmem t).mp ht with rfl | hob | h1 | h2 | hb
    · simp at hname
    · rw [hobsName t hob] at hname; simp at hname
    · rcases hc1 with ⟨_, a, b2, d, ha, hb2, hd, hL1⟩ | ⟨_, hL1⟩ <;> subst hL1
      · rw [List.mem_singleton] at h1
        subst h1
        exact ⟨a, b2, d, ha, hb2, hd, rfl⟩
      · simp at h1
    · rcases hc2 with ⟨_, a, b2, d, _, _, _, hL2⟩ | ⟨_, hL2⟩ <;> subst hL2
      · rw [List.mem_singleton] at h2
        subst h2
        simp at hname
      · simp at h2
    · rcases hbandName t hb with hn | hn <;> rw [hn] at hname <;>
        simp at hname
  · intro t ht hname
    rcases (hmem t).mp ht with rfl | hob | h1 | h2 | hb
    · simp at hname
    · rw [hobsName t hob] at hname; simp at hname
    · rcases hc1 with ⟨_, a, b2, d, _, _, _, hL1⟩ | ⟨_, hL1⟩ <;> subst hL1
      · rw [List.mem_singleton] at h1
        subst h1
        simp at hname
      · simp at h1
    · rcases hc2 with ⟨_, a, b2, d, ha, hb2, hd, hL2⟩ | ⟨_, hL2⟩ <;> subst hL2
      · rw [List.mem_singleton] at h2
        subst h2
        exact ⟨a, b2, d, ha, hb2, hd, rfl⟩
      · simp at h2
    · rcases hbandName t hb with hn | hn <;> rw [hn] at hname <;>
        simp at hname

theorem claim_capacity_traces_witness :
    ∃ added,
      (figOf (plot_forecast ⟨none, some true, none⟩
        ⟨[("ds", [0]), ("yhat", [1]), ("cap", [5]), ("floor", [0])]⟩
        none false true ("ds") ("y") 800 600 false none)).data =
        (initFig none).data ++ added ∧
      (∃ t ∈ added, t.name = some ("Maximum capacity")) ∧
      (∃ t ∈ added, t.name = some ("Minimum capacity")) := by
  obtain ⟨added, hadd, hmax, hmin, _, _⟩ := claim_capacity_traces
    ⟨none, some true, none⟩
    ⟨[("ds", [0]), ("yhat", [1]), ("cap", [5]), ("floor", [0])]⟩
    none false true ("ds") ("y") 800 600 false none
    (figOf (plot_forecast ⟨none, some true, none⟩
      ⟨[("ds", [0]), ("yhat", [1]), ("cap", [5]), ("floor", [0])]⟩
      none false true ("ds") ("y") 800 600 false none))
    rfl
  exact ⟨added, hadd, hmax.mpr ⟨rfl, by decide⟩,
    hmin.mpr ⟨rfl, rfl, by decide⟩⟩

/-- C3: a table with only `ds` and `yhat`, a model with no optional
attributes and no caller-supplied figure yield exactly the forecast mean
line — both with `uncertainty=false, plot_cap=false` and under the default
options, where the layout additionally has width 800, height 600 and a
hidden legend. -/
theorem claim_minimal_figure (ds yh : List Int) :
    plot_forecast ⟨none, none, none⟩ ⟨[("ds", ds), ("yhat", yh)]⟩
        none false false ("ds") ("y") 800 600 false none =
      .ok { data := [forecastTrace ds yh ("#0D47A1")],
            layout := { width := some 800, height := some 600,
                        margin := some marginStd, title := some titleStd,
                        xaxisTitle := some ("ds"),
                        yaxisTitle := some ("y"),
                        hovermode := some ("x unified"), legend := none,
                        showlegend := some false } } ∧
    plot_forecast_defaults ⟨none, none, none⟩
        ⟨[("ds", ds), ("yhat", yh)]⟩ =
      .ok { data := [forecastTrace ds yh ("#0D47A1")],
            layout := { width := some 800, height := some 600,
                        margin := some marginStd, title := some titleStd,
                        xaxisTitle := some ("ds"),
                        yaxisTitle := some ("y"),
                        hovermode := some ("x unified"), legend := none,
                        showlegend := some false } } := by
  constructor <;> rfl

/-- C5: for every successful call, an "Observed data points" trace is
among the added traces exactly when the model exposes a history table;
when it does, the trace is the small opaque marker trace over the
history's `ds` and `y` columns; when it does not, `_add_observed` returns
the figure unchanged with no error. -/
theorem claim_observed_trace
    (m : Model) (fcst : DataFrame) (figOpt : Option Figure) (u pc : Bool)
    (xl yl : String) (w hh : Nat) (il : Bool) (colors : Option Palette)
    (fig : Figure)
    (hok : plot_forecast m fcst figOpt u pc xl yl w hh il colors = .ok fig) :
    ∃ added, fig.data = (initFig figOpt).data ++ added ∧
      ((∃ t ∈ added, t.name = some ("Observed data points")) ↔
        m.history.isSome = true) ∧
      (∀ hdf, m.history = some hdf →
        ∃ x y c, hdf.getCol ("ds") = .ok x ∧ hdf.getCol ("y") = .ok y ∧
          paletteGet (resolvePalette colors) ("observed") = .ok c ∧
          observedTrace x y c ∈ added ∧
          (observedTrace x y c).marker =
            some { color := some c, size := some 4, opacity := some 1 }) ∧
      (m.history = none → ∀ f p, _add_observed f m p = .ok f) := by
  obtain ⟨x, y, c, obsL, capL, bandL, hxd, hxy, hxc, hdata, hlay, hobs,
    hcap, hband⟩ := plot_forecast_ok_struct hok
  obtain ⟨L1, L2, hcapL, hc1, hc2⟩ := capSpec_cases hcap
  subst hcapL
  have hmem : ∀ t : Trace,
      t ∈ forecastTrace x y c :: (obsL ++ (L1 ++ L2) ++ bandL) ↔
      (t = forecastTrace x y c ∨ t ∈ obsL ∨ t ∈ L1 ∨ t ∈ L2 ∨
        t ∈ bandL) := by
    intro t
    simp [or_assoc]
  have hL1Name : ∀ t ∈ L1, t.name = some ("Maximum capacity") := by
    rcases hc1 with ⟨_, a, b2, d, _, _, _, hL1⟩ | ⟨_, hL1⟩ <;> subst hL1
    · intro t ht
      rw [List.mem_singleton] at ht
      subst ht
      simp
    · intro t ht; simp at ht
  have hL2Name : ∀ t ∈ L2, t.name = some ("Minimum capacity") := by
    rcases hc2 with ⟨_, a, b2, d, _, _, _, hL2⟩ | ⟨_, hL2⟩ <;> subst hL2
    · intro t ht
      rw [List.mem_singleton] at ht
      subst ht
      simp
    · intro t ht; simp at ht
  have hbandName : ∀ t ∈ bandL,
      t.name = none ∨ t.name = some ("Uncertainty interval") := by
    rcases bandSpec_cases hband with
      ⟨_, a, b2, b3, d, _, _, _, _, hL⟩ | ⟨_, hL⟩ <;> subst hL
    · intro t ht
      rcases List.mem_cons.mp ht with rfl | ht2
      · exact Or.inl rfl
      · rw [List.mem_singleton] at ht2
        subst ht2
        exact Or.inr rfl
    · intro t ht; simp at ht
  refine ⟨forecastTrace x y c :: (obsL ++ (L1 ++ L2) ++ bandL), hdata,
    ?_, ?_, ?_⟩
  · constructor
    · rintro ⟨t, ht, hname⟩
      rcases (hmem t).mp ht with rfl | hob | h1 | h2 | hb
      · simp at hname
      · rcases obsSpec_cases hobs with ⟨_, hL⟩ | ⟨hdf, a, b, d, hh2, _⟩
        · subst hL; simp at hob
        · rw [hh2]; rfl
      · rw [hL1Name t h1] at hname; simp at hname
      · rw [hL2Name t h2] at hname; simp at hname
      · rcases hbandName t hb with hn | hn <;> rw [hn] at hname <;>
          simp at hname
    · intro hsome
      rcases obsSpec_cases hobs with ⟨hnone, _⟩ | ⟨hdf, a, b, d, _, _, _, _, hL⟩
      · rw [hnone] at hsome; simp at hsome
      · subst hL
        exact ⟨observedTrace a b d, by simp, by simp⟩
  · intro hdf hh2
    rcases obsSpec_cases hobs with ⟨hnone, _⟩ | ⟨hdf2, a, b, d, hh3, h1, h2, h3, hL⟩
    · rw [hnone] at hh2; exact Option.noConfusion hh2
    · subst hL
      have hdfeq : hdf2 = hdf := by
        rw [hh3] at hh2
        exact Option.some.inj hh2
      subst hdfeq
      exact ⟨a, b, d, h1, h2, h3, by simp, rfl⟩
  · intro hnone f p
    unfold _add_observed
    rw [hnone]

theorem claim_observed_trace_witness :
    ∃ added,
      (figOf (plot_forecast
        ⟨some ⟨[("ds", [0]), ("y", [7])]⟩, none, none⟩
        ⟨[("ds", [0]), ("yhat", [1])]⟩
        none false false ("ds") ("y") 800 600 false none)).data =
        (initFig none).data ++ added ∧
      (∃ t ∈ added, t.name = some ("Observed data points")) := by
  obtain ⟨added, hadd, hiff, _, _⟩ := claim_observed_trace
    ⟨some ⟨[("ds", [0]), ("y", [7])]⟩, none, none⟩
    ⟨[("ds", [0]), ("yhat", [1])]⟩
    none false false ("ds") ("y") 800 600 false none
    (figOf (plot_forecast
      ⟨some ⟨[("ds", [0]), ("y", [7])]⟩, none, none⟩
      ⟨[("ds", [0]), ("yhat", [1])]⟩
      none false false ("ds") ("y") 800 600 false none))
    rfl
  exact ⟨added, hadd, hiff.mpr rfl⟩

/-- C6 counterexample: with a caller-supplied starting figure whose legend
is already hidden, `include_legend=true` still returns a figure whose
`showlegend` attribute is `False` — the code installs the horizontal
legend style but never re-enables legend visibility, so the claimed
"visible legend whenever includeLegend is true" fails at this input. -/
theorem claim_legend_counterexample :
    Except.map (fun f => f.layout.showlegend)
      (plot_forecast ⟨none, none, none⟩ ⟨[("ds", [0]), ("yhat", [1])]⟩
        (some { data := [forecastTrace [0] [1] ("#0D47A1")],
                layout := { width := none, height := none,
                            margin := none, title := none,
                            xaxisTitle := none, yaxisTitle := none,
                            hovermode := none, legend := none,
                            showlegend := some false } })
        true true ("ds") ("y") 800 600 true none) =
      .ok (some false) := by rfl

/-- C6 (amended): `include_legend=false` always hides the legend;
`include_legend=true` installs the horizontal legend configuration
anchored just above the plot area and leaves the legend-hidden flag as it
was on the starting figure — in particular unset (not hidden) whenever the
call starts from a fresh figure. -/
theorem claim_legend_amended
    (m : Model) (fcst : DataFrame) (figOpt : Option Figure) (u pc : Bool)
    (xl yl : String) (w hh : Nat) (il : Bool) (colors : Option Palette)
    (fig : Figure)
    (hok : plot_forecast m fcst figOpt u pc xl yl w hh il colors = .ok fig) :
    (il = false → fig.layout.showlegend = some false) ∧
    (il = true → fig.layout.legend = some legendStd ∧
      fig.layout.showlegend = (initFig figOpt).layout.showlegend) ∧
    (il = true → figOpt = none → fig.layout.showlegend = none) := by
  obtain ⟨x, y, c, obsL, capL, bandL, hxd, hxy, hxc, hdata, hlay, hobs,
    hcap, hband⟩ := plot_forecast_ok_struct hok
  refine ⟨?_, ?_, ?_⟩
  · intro hil
    subst hil
    rw [hlay]
    simp [layoutResult]
  · intro hil
    subst hil
    rw [hlay]
    constructor <;> simp [layoutResult]
  · intro hil hfo
    subst hil
    subst hfo
    rw [hlay]
    simp [layoutResult, initFig, emptyFigure, emptyLayout]

theorem claim_legend_amended_witness :
    (figOf (plot_forecast ⟨none, none, none⟩
      ⟨[("ds", [0]), ("yhat", [1])]⟩
      none true true ("ds") ("y") 800 600 true none)).layout.showlegend =
      none := by
  have h := claim_legend_amended ⟨none, none, none⟩
    ⟨[("ds", [0]), ("yhat", [1])]⟩
    none true true ("ds") ("y") 800 600 true none
    (figOf (plot_forecast ⟨none, none, none⟩
      ⟨[("ds", [0]), ("yhat", [1])]⟩
      none true true ("ds") ("y") 800 600 true none))
    rfl
  exact h.2.2 rfl rfl

theorem layoutResult_fields (base : Layout) (il : Bool) (xl yl : String)
    (w h : Nat) :
    (layoutResult base il xl yl w h).width = some w ∧
    (layoutResult base il xl yl w h).height = some h ∧
    (layoutResult base il xl yl w h).margin = some marginStd ∧
    (layoutResult base il xl yl w h).title = some titleStd ∧
    (layoutResult base il xl yl w h).xaxisTitle = some xl ∧
    (layoutResult base il xl yl w h).yaxisTitle = some yl ∧
    (layoutResult base il xl yl w h).hovermode = some ("x unified") := by
  cases il <;> simp [layoutResult]

/-- C9: the layout step applies to every successful call: width and height
from the options (800×600 under the defaults), the fixed margins, an empty
centred title, axis titles from `xlabel`/`ylabel` ("ds"/"y" under the
defaults) and unified hover-by-x; the default call also hides the
legend. -/
theorem claim_layout_applied
    (m : Model) (fcst : DataFrame) (figOpt : Option Figure) (u pc : Bool)
    (xl yl : String) (w hh : Nat) (il : Bool) (colors : Option Palette)
    (fig : Figure)
    (hok : plot_forecast m fcst figOpt u pc xl yl w hh il colors = .ok fig) :
    (fig.layout.width = some w ∧ fig.layout.height = some hh ∧
      fig.layout.margin = some { l := 60, r := 40, t := 60, b := 60 } ∧
      fig.layout.title = some { text := "", x := (1/2 : Rat) } ∧
      fig.layout.xaxisTitle = some xl ∧ fig.layout.yaxisTitle = some yl ∧
      fig.layout.hovermode = some ("x unified")) ∧
    (∀ m2 fcst2 fig2, plot_forecast_defaults m2 fcst2 = .ok fig2 →
      fig2.layout.width = some 800 ∧ fig2.layout.height = some 600 ∧
      fig2.layout.xaxisTitle = some ("ds") ∧
      fig2.layout.yaxisTitle = some ("y") ∧
      fig2.layout.showlegend = some false) := by
  obtain ⟨x, y, c, obsL, capL, bandL, hxd, hxy, hxc, hdata, hlay, hobs,
    hcap, hband⟩ := plot_forecast_ok_struct hok
  constructor
  · rw [hlay]
    have h := layoutResult_fields (initFig figOpt).layout il xl yl w hh
    exact ⟨h.1, h.2.1, h.2.2.1, h.2.2.2.1, h.2.2.2.2.1, h.2.2.2.2.2.1,
      h.2.2.2.2.2.2⟩
  · intro m2 fcst2 fig2 h2
    obtain ⟨x2, y2, c2, obsL2, capL2, bandL2, _, _, _, _, hlay2, _, _, _⟩ :=
      plot_forecast_ok_struct h2
    rw [hlay2]
    have h := layoutResult_fields (initFig none).layout false ("ds") ("y")
      800 600
    exact ⟨h.1, h.2.1, h.2.2.2.2.1, h.2.2.2.2.2.1, by simp [layoutResult]⟩

theorem claim_layout_applied_witness :
    (figOf (plot_forecast ⟨none, none, none⟩
      ⟨[("ds", [0]), ("yhat", [1])]⟩
      none true true ("xt") ("yt") 320 240 false none)).layout.width =
      some 320 := by
  have h := claim_layout_applied ⟨none, none, none⟩
    ⟨[("ds", [0]), ("yhat", [1])]⟩
    none true true ("xt") ("yt") 320 240 false none
    (figOf (plot_forecast ⟨none, none, none⟩
      ⟨[("ds", [0]), ("yhat", [1])]⟩
      none true true ("xt") ("yt") 320 240 false none))
    rfl
  exact h.1.1

/-- C4: the effective palette is the default palette with the caller's
override merged on top key by key — an overridden role reads the override,
every other key reads the default, all four default roles survive the
merge, and in the spec's example the overridden `forecast` role colours
the forecast trace while the other three roles keep their defaults. -/
theorem claim_palette_merge (ov : Palette) :
    (∀ k, dictGet? (resolvePalette (some ov)) k =
      (match dictGet? ov k with
       | some v => some v
       | none => dictGet? DEFAULT_PALETTE k)) ∧
    (∀ r, r ∈ (["forecast", "observed", "cap", "uncertainty"] :
        List String) →
      (dictGet? (resolvePalette (some ov)) r).isSome = true) ∧
    (paletteGet (resolvePalette (some [("forecast", "#ABCDEF")]))
        ("forecast") = .ok ("#ABCDEF") ∧
      paletteGet (resolvePalette (some [("forecast", "#ABCDEF")]))
        ("observed") = .ok ("#FF6F00") ∧
      paletteGet (resolvePalette (some [("forecast", "#ABCDEF")]))
        ("cap") = .ok ("#000000") ∧
      paletteGet (resolvePalette (some [("forecast", "#ABCDEF")]))
        ("uncertainty") = .ok ("rgba(0, 114, 178, 0.2)")) ∧
    (∀ fig, plot_forecast ⟨none, none, none⟩
        ⟨[("ds", [0]), ("yhat", [1])]⟩
        none false false ("ds") ("y") 800 600 false
        (some [("forecast", "#ABCDEF")]) = .ok fig →
      ∃ t ∈ fig.data,
        t.line = some { color := some ("#ABCDEF"), width := some 2,
                        dash := none }) := by
  have h1 : ∀ k, dictGet? (resolvePalette (some ov)) k =
      (match dictGet? ov k with
       | some v => some v
       | none => dictGet? DEFAULT_PALETTE k) := by
    intro k
    cases ov with
    | nil => simp [resolvePalette, dictGet?]
    | cons q t =>
      have hres : resolvePalette (some (q :: t)) =
          dictUpdate DEFAULT_PALETTE (q :: t) := by
        simp [resolvePalette]
      rw [hres, dictGet?_dictUpdate]
  refine ⟨h1, ?_, ⟨rfl, rfl, rfl, rfl⟩, ?_⟩
  · intro r hr
    rw [h1 r]
    cases ho : dictGet? ov r with
    | some v => rfl
    | none => fin_cases hr <;> rfl
  · intro fig h
    have h2 : figOf (plot_forecast ⟨none, none, none⟩
        ⟨[("ds", [0]), ("yhat", [1])]⟩
        none false false ("ds") ("y") 800 600 false
        (some [("forecast", "#ABCDEF")])) = fig := by
      rw [h]
      rfl
    refine ⟨forecastTrace [0] [1] ("#ABCDEF"), ?_, rfl⟩
    rw [← h2]
    show forecastTrace [0] [1] ("#ABCDEF") ∈
      [forecastTrace [0] [1] ("#ABCDEF")]
    exact List.mem_singleton.mpr rfl

theorem claim_palette_merge_witness :
    (dictGet? (resolvePalette (some [("forecast", "#ABCDEF")]))
      ("uncertainty")).isSome = true :=
  (claim_palette_merge [("forecast", "#ABCDEF")]).2.1 ("uncertainty")
    (by decide)

theorem plot_forecastS_tables (s : PyState) (defRef fcstRef : Nat)
    (m : Model) (figOpt : Option Figure) (u pc : Bool) (xl yl : String)
    (w hh : Nat) (il : Bool) (colors : Option Palette) :
    ((plot_forecastS s defRef fcstRef m figOpt u pc xl yl w hh il
        colors).2).tables = s.tables ++ [s.readTable fcstRef] := by
  unfold plot_forecastS PyState.copyTable PyState.copyPalette
    PyState.updatePalette
  cases colors with
  | none => rfl
  | some ov =>
    cases hov : ov.isEmpty with
    | true =>
      dsimp only
      rw [hov, if_pos rfl]
    | false =>
      dsimp only
      rw [hov, if_neg Bool.false_ne_true]

/-- C7: the caller's forecast table is never mutated: the call copies it
into a fresh store slot and works on the copy, so after one call — and
after calling twice with the same inputs — the table at the caller's
reference is exactly what it was before. -/
theorem claim_no_table_mutation (s : PyState) (defRef fcstRef : Nat)
    (m : Model) (figOpt : Option Figure) (u pc : Bool) (xl yl : String)
    (w hh : Nat) (il : Bool) (colors : Option Palette)
    (href : fcstRef < s.tables.length) :
    ((plot_forecastS s defRef fcstRef m figOpt u pc xl yl w hh il
        colors).2).tables[fcstRef]? = s.tables[fcstRef]? ∧
    ((plot_forecastS ((plot_forecastS s defRef fcstRef m figOpt u pc xl yl
        w hh il colors).2) defRef fcstRef m figOpt u pc xl yl w hh il
        colors).2).tables[fcstRef]? = s.tables[fcstRef]? := by
  have h1 := plot_forecastS_tables s defRef fcstRef m figOpt u pc xl yl
    w hh il colors
  constructor
  · rw [h1]
    exact List.getElem?_append_left href
  · rw [plot_forecastS_tables, h1]
    rw [List.getElem?_append_left (by simp; omega), List.getElem?_append_left href]

theorem claim_no_table_mutation_witness :
    ((plot_forecastS ⟨[⟨[("ds", [0]), ("yhat", [1])]⟩], [DEFAULT_PALETTE]⟩
        0 0 ⟨none, none, none⟩ none true true ("ds") ("y") 800 600 false
        none).2).tables[0]? =
      (⟨[⟨[("ds", [0]), ("yhat", [1])]⟩], [DEFAULT_PALETTE]⟩ :
        PyState).tables[0]? :=
  (claim_no_table_mutation
    ⟨[⟨[("ds", [0]), ("yhat", [1])]⟩], [DEFAULT_PALETTE]⟩ 0 0
    ⟨none, none, none⟩ none true true ("ds") ("y") 800 600 false none
    (by decide)).1

/-- C8: the shared default palette is never mutated by a call: the merge
happens on a copy, so with any `colors` override the palette at the
default-palette reference is unchanged by the call, and one call's
overrides cannot leak into another call's effective palette. -/
theorem claim_default_palette_immutable (s : PyState) (defRef fcstRef : Nat)
    (m : Model) (figOpt : Option Figure) (u pc : Bool) (xl yl : String)
    (w hh : Nat) (il : Bool) (colors : Option Palette)
    (hdef : defRef < s.palettes.length) :
    ((plot_forecastS s defRef fcstRef m figOpt u pc xl yl w hh il
        colors).2).palettes[defRef]? = s.palettes[defRef]? := by
  unfold plot_forecastS PyState.copyTable PyState.copyPalette
    PyState.updatePalette
  cases colors with
  | none =>
    dsimp only
    exact List.getElem?_append_left hdef
  | some ov =>
    cases hov : ov.isEmpty with
    | true =>
      dsimp only
      rw [hov, if_pos rfl]
      exact List.getElem?_append_left hdef
    | false =>
      dsimp only
      rw [hov, if_neg Bool.false_ne_true]
      dsimp only
      rw [List.getElem?_set_ne (by omega)]
      exact List.getElem?_append_left hdef

theorem claim_default_palette_immutable_witness :
    ((plot_forecastS ⟨[⟨[("ds", [0]), ("yhat", [1])]⟩], [DEFAULT_PALETTE]⟩
        0 0 ⟨none, none, none⟩ none true true ("ds") ("y") 800 600 false
        (some [("forecast", "#ABCDEF")])).2).palettes[0]? =
      some DEFAULT_PALETTE := by
  have h := claim_default_palette_immutable
    ⟨[⟨[("ds", [0]), ("yhat", [1])]⟩], [DEFAULT_PALETTE]⟩ 0 0
    ⟨none, none, none⟩ none true true ("ds") ("y") 800 600 false
    (some [("forecast", "#ABCDEF")]) (by decide)
  rw [h]
  rfl

/-- C10: the `yhat_upper`/`yhat_lower` columns are read only under the
uncertainty condition: when that condition fails, removing both columns
from the table leaves the call's result unchanged (so their absence cannot
raise); when the condition holds and a bound column is missing, the call
fails with that column's `KeyError` instead of skipping the band. -/
theorem claim_bounds_access
    (m : Model) (fcst : DataFrame) (figOpt : Option Figure) (u pc : Bool)
    (xl yl : String) (w hh : Nat) (il : Bool) (colors : Option Palette) :
    (¬(u = true ∧ 0 < m.uncertainty_samples.getD 0) →
      plot_forecast m (fcst.removeCols ["yhat_upper", "yhat_lower"])
          figOpt u pc xl yl w hh il colors =
        plot_forecast m fcst figOpt u pc xl yl w hh il colors) ∧
    (∀ n : Int, 0 < n → ∀ ds yh : List Int,
      plot_forecast ⟨none, none, some n⟩ ⟨[("ds", ds), ("yhat", yh)]⟩
          none true true ("ds") ("y") 800 600 false none =
        .error ("KeyError: yhat_upper")) ∧
    (∀ n : Int, 0 < n → ∀ ds yh yu : List Int,
      plot_forecast ⟨none, none, some n⟩
          ⟨[("ds", ds), ("yhat", yh), ("yhat_upper", yu)]⟩
          none true true ("ds") ("y") 800 600 false none =
        .error ("KeyError: yhat_lower")) := by
  refine ⟨?_, ?_, ?_⟩
  · intro hcond
    have hfc : _add_forecast (initFig figOpt)
        (fcst.removeCols ["yhat_upper", "yhat_lower"])
        (resolvePalette colors) =
        _add_forecast (initFig figOpt) fcst (resolvePalette colors) := by
      unfold _add_forecast
      rw [getCol_removeCols fcst ["yhat_upper", "yhat_lower"] ("ds")
          (by decide),
        getCol_removeCols fcst ["yhat_upper", "yhat_lower"] ("yhat")
          (by decide)]
    have hcapEq : ∀ fg : Figure, _add_capacity fg m
        (fcst.removeCols ["yhat_upper", "yhat_lower"])
        (resolvePalette colors) =
        _add_capacity fg m fcst (resolvePalette colors) := by
      intro fg
      unfold _add_capacity _add_capacity_max _add_capacity_floor
      rw [hasCol_removeCols fcst ["yhat_upper", "yhat_lower"] ("cap")
          (by decide),
        hasCol_removeCols fcst ["yhat_upper", "yhat_lower"] ("floor")
          (by decide),
        getCol_removeCols fcst ["yhat_upper", "yhat_lower"] ("ds")
          (by decide),
        getCol_removeCols fcst ["yhat_upper", "yhat_lower"] ("cap")
          (by decide),
        getCol_removeCols fcst ["yhat_upper", "yhat_lower"] ("floor")
          (by decide)]
    have huncEq : ∀ fg : Figure,
        (if u then _add_uncertainty fg m
          (fcst.removeCols ["yhat_upper", "yhat_lower"])
          (resolvePalette colors) else .ok fg) =
        (if u then _add_uncertainty fg m fcst (resolvePalette colors)
         else .ok fg) := by
      intro fg
      cases u with
      | false => rw [if_neg Bool.false_ne_true, if_neg Bool.false_ne_true]
      | true =>
        rw [if_pos rfl, if_pos rfl]
        have hns : ¬(0 < m.uncertainty_samples.getD 0) := fun hs =>
          hcond ⟨rfl, hs⟩
        unfold _add_uncertainty
        rw [if_neg hns, if_neg hns]
    unfold plot_forecast assembleFigure
    rw [hfc]
    simp only [hcapEq, huncEq]
  · intro n hn ds yh
    simp +decide [plot_forecast, assembleFigure, _add_forecast,
      _add_observed, _add_capacity, _add_capacity_max, _add_capacity_floor,
      _add_uncertainty, initFig, resolvePalette, paletteGet, dictGet?,
      DataFrame.getCol, DataFrame.hasCol, DEFAULT_PALETTE, List.find?, hn]
  · intro n hn ds yh yu
    simp +decide [plot_forecast, assembleFigure, _add_forecast,
      _add_observed, _add_capacity, _add_capacity_max, _add_capacity_floor,
      _add_uncertainty, initFig, resolvePalette, paletteGet, dictGet?,
      DataFrame.getCol, DataFrame.hasCol, DEFAULT_PALETTE, List.find?, hn]

theorem claim_bounds_access_witness :
    (plot_forecast ⟨none, none, some 100⟩
        ((⟨[("ds", [0]), ("yhat", [1]), ("yhat_upper", [2]),
            ("yhat_lower", [0])]⟩ : DataFrame).removeCols
          ["yhat_upper", "yhat_lower"])
        none false true ("ds") ("y") 800 600 false none =
      plot_forecast ⟨none, none, some 100⟩
        ⟨[("ds", [0]), ("yhat", [1]), ("yhat_upper", [2]),
          ("yhat_lower", [0])]⟩
        none false true ("ds") ("y") 800 600 false none) ∧
    plot_forecast ⟨none, none, some 100⟩ ⟨[("ds", [0]), ("yhat", [1])]⟩
        none true true ("ds") ("y") 800 600 false none =
      .error ("KeyError: yhat_upper") := by
  have h := claim_bounds_access ⟨none, none, some 100⟩
    ⟨[("ds", [0]), ("yhat", [1]), ("yhat_upper", [2]), ("yhat_lower", [0])]⟩
    none false true ("ds") ("y") 800 600 false none
  exact ⟨h.1 (by simp), h.2.1 100 (by decide) [0] [1]⟩
